import Mathlib

/-!
Verification of the conversation state machine and escalation flow of the
kayako-ai-assistant repository.

The definitions below are a shallow embedding of the Python sources:
- `src/src/conversation/state.py` (ConversationState, Intent, Entity, Message,
  ConversationContext with add_message / get_context_window / transition_state),
- `src/src/tickets/ticket_manager.py` (TicketManager: _validate_email,
  _validate_phone, _determine_priority, create_ticket, extract_contact_info),
- `src/src/conversation/flow.py` (ConversationFlowManager.process_message,
  _create_support_ticket, _handle_state).

Python dictionaries are embedded as insertion-ordered association lists,
floats (entity confidences) as rationals, in-place mutation as explicit state
passing, exceptions as `Except`, and calls to remote collaborators (the GPT
intent classifier, the KB search engine, the Kayako ticket API, the response
generator) as oracle fields of a `Collabs` record.  A trace of `Event`s records
which collaborators a code path invoked and which state transitions it made.
Message timestamps are omitted: no modelled code path reads them.
-/

namespace Kayako

/-- States in the conversation flow (`ConversationState` in state.py). -/
inductive ConversationState
| greeting
| collectingIssue
| searchingKb
| providingSolution
| creatingTicket
| ended
deriving DecidableEq, Repr

/-- The string value of each `ConversationState` member (state.py lines 10-15). -/
def ConversationState.value : ConversationState → String
| .greeting => "greeting"
| .collectingIssue => "collecting_issue"
| .searchingKb => "searching_kb"
| .providingSolution => "providing_solution"
| .creatingTicket => "creating_ticket"
| .ended => "ended"

/-- Detected intents (`Intent` in state.py lines 17-26).  The source enum has
exactly these eight members; in particular it has no `END_CONVERSATION`
member, although flow.py compares against `Intent.END_CONVERSATION`. -/
inductive Intent
| generalQuery
| passwordReset
| billingIssue
| technicalProblem
| accountAccess
| confirm
| deny
| unknown
deriving DecidableEq, Repr

/-- The string value of each `Intent` member (state.py lines 19-26). -/
def Intent.value : Intent → String
| .generalQuery => "general_query"
| .passwordReset => "password_reset"
| .billingIssue => "billing_issue"
| .technicalProblem => "technical_problem"
| .accountAccess => "account_access"
| .confirm => "confirm"
| .deny => "deny"
| .unknown => "unknown"

/-- Python `Intent(s)`: look a member up by its string value; `none` models the
`ValueError` Python raises when no member has that value. -/
def Intent.ofString (s : String) : Option Intent :=
if s = "general_query" then some .generalQuery
else if s = "password_reset" then some .passwordReset
else if s = "billing_issue" then some .billingIssue
else if s = "technical_problem" then some .technicalProblem
else if s = "account_access" then some .accountAccess
else if s = "confirm" then some .confirm
else if s = "deny" then some .deny
else if s = "unknown" then some .unknown
else none

/-- Named entity extracted from conversation (state.py lines 28-32); the float
confidence is embedded as a rational. -/
structure Entity where
  type : String
  value : String
  confidence : ℚ
deriving DecidableEq, Repr

/-- A single message in the conversation (state.py lines 34-40); the timestamp
field is omitted (no modelled code reads it). -/
structure Message where
  role : String
  content : String
  intent : Option Intent := none
  entities : List Entity := []
deriving DecidableEq, Repr

/-- Insertion-ordered association-list lookup, embedding Python `dict.get`. -/
def alistGet {α : Type} (l : List (String × α)) (k : String) : Option α :=
(l.find? (fun p => p.1 = k)).map Prod.snd

/-- Insertion-ordered association-list update, embedding Python
`d[k] = v`: an existing key keeps its position, a new key is appended. -/
def alistSet {α : Type} (l : List (String × α)) (k : String) (v : α) :
    List (String × α) :=
match l with
| [] => [(k, v)]
| (k0, v0) :: rest =>
  if k0 = k then (k0, v) :: rest else (k0, v0) :: alistSet rest k v

/-- The conversation context aggregate (state.py lines 42-49).
`detected_entities : Dict[str, Entity]` and `metadata : Dict[str, str]` are
insertion-ordered association lists; metadata values are `Option String`
because flow.py stores `contact_info.get(...)`, which may be `None`. -/
structure ConversationContext where
  conversation_id : String
  current_state : ConversationState
  messages : List Message := []
  detected_entities : List (String × Entity) := []
  last_intent : Option Intent := none
  metadata : List (String × Option String) := []
deriving DecidableEq, Repr

namespace ConversationContext

/-- One step of the entity-storing loop in `add_message` (state.py lines
66-69): replace the stored entity of the same type only when the incoming
confidence is strictly greater (an absent entry has confidence 0.0). -/
def storeEntity (d : List (String × Entity)) (e : Entity) :
    List (String × Entity) :=
if e.confidence >
    ((alistGet d e.type).getD { type := "", value := "", confidence := 0 }).confidence
then alistSet d e.type e
else d

/-- `ConversationContext.add_message` (state.py lines 51-69): append the
message, update `last_intent` when an intent is given, then fold the
entity-storing loop over the entity list in order. -/
def addMessage (ctx : ConversationContext) (role content : String)
    (intent : Option Intent := none) (entities : List Entity := []) :
    ConversationContext :=
{ ctx with
  messages := ctx.messages ++
    [{ role := role, content := content, intent := intent, entities := entities }],
  last_intent := match intent with | some i => some i | none => ctx.last_intent,
  detected_entities := entities.foldl storeEntity ctx.detected_entities }

/-- `ConversationContext.transition_state` (state.py lines 135-137):
unconditional overwrite of `current_state`. -/
def transitionState (ctx : ConversationContext) (newState : ConversationState) :
    ConversationContext :=
{ ctx with current_state := newState }

/-- `_get_system_prompt` (state.py lines 85-104): the base prompt with the
current state, detected entities and last intent substituted in. -/
def systemPrompt (ctx : ConversationContext) : String :=
"You are a helpful and professional customer service AI assistant for Kayako.\nYour goal is to help customers resolve their issues efficiently and professionally.\nYou should:\n1. Be polite and empathetic\n2. Focus on understanding the customer\x27s issue\n3. Provide clear and concise solutions\n4. Collect necessary information when needed\n5. Know when to escalate to a human agent\n\nCurrent conversation state: "
  ++ ctx.current_state.value
  ++ "\nDetected entities: "
  ++ String.intercalate ", "
      (ctx.detected_entities.map (fun p => p.1 ++ ": " ++ p.2.value))
  ++ "\nLast intent: "
  ++ (match ctx.last_intent with | some i => i.value | none => "None")

/-- A `{"role": ..., "content": ...}` entry of the context window. -/
structure ChatEntry where
  role : String
  content : String
deriving DecidableEq, Repr

/-- Python slice `l[-n:]` for a non-negative `n`: the last `n` elements,
except that `n = 0` yields the whole list (in Python `-0 == 0`). -/
def pyLastSlice {α : Type} (n : ℕ) (l : List α) : List α :=
if n = 0 then l else l.drop (l.length - n)

/-- `get_context_window` (state.py lines 71-83), embedded with an explicit
post-state: the method performs no writes, so the context is returned
unchanged alongside the window (system entry first, then the sliced
message history). -/
def getContextWindow (ctx : ConversationContext) (maxMessages : ℕ) :
    ConversationContext × List ChatEntry :=
(ctx,
  { role := "system", content := systemPrompt ctx } ::
    (pyLastSlice maxMessages ctx.messages).map
      (fun m => { role := m.role, content := m.content }))

end ConversationContext

/-! ### Regular-expression scanners

`extract_contact_info` and the validators in ticket_manager.py use a handful
of fixed `re` patterns.  Each pattern is embedded as a dedicated scanner over
`List Char` with Python `re` semantics (leftmost match, greedy quantifiers
with backtracking); each scanner names the pattern it embeds. -/

/-- Python `\w` on the ASCII inputs at hand: letters, digits, underscore. -/
def wordChar (c : Char) : Bool := c.isAlphanum || c = '_'

/-- The character class `[\w\.-]` of the email patterns. -/
def emailChar (c : Char) : Bool := wordChar c || c = '.' || c = '-'

/-- Python `\s`: ASCII whitespace. -/
def pyWs (c : Char) : Bool :=
c = ' ' || c = '\t' || c = '\n' || c = '\r' || c = '\x0b' || c = '\x0c'

/-- `\b` before a word-initial character: start of string or a preceding
non-word character (`prev` is the character before the scan position). -/
def boundaryBeforeWord (prev : Option Char) : Bool :=
match prev with
| none => true
| some p => !wordChar p

/-- `\b` after a word-final character: end of string or a following non-word
character. -/
def boundaryAfterWord (l : List Char) : Bool :=
match l with
| [] => true
| x :: _ => !wordChar x

/-- `re.sub(r'\b(?:at|@)\b', '@', s, flags=re.IGNORECASE)` (ticket_manager.py
line 222), scanning left to right and threading the previous original
character for the boundary tests.  For the `@` alternative both boundaries
demand an adjacent word character, since `@` itself is a non-word character. -/
def subAtGo (prev : Option Char) : List Char → List Char
| [] => []
| c :: rest =>
  if c.toLower = 'a' then
    match rest with
    | [] => [c]
    | t :: rest2 =>
      if t.toLower = 't' && boundaryBeforeWord prev && boundaryAfterWord rest2
      then '@' :: subAtGo (some t) rest2
      else c :: subAtGo (some c) (t :: rest2)
  else if c = '@' &&
      (match prev with | some p => wordChar p | none => false) &&
      (match rest with | x :: _ => wordChar x | [] => false) then
    '@' :: subAtGo (some '@') rest
  else
    c :: subAtGo (some c) rest

/-- `re.sub(r'\b(?:dot)\b', '.', s, flags=re.IGNORECASE)` (ticket_manager.py
line 223). -/
def subDotGo (prev : Option Char) : List Char → List Char
| [] => []
| [c] => [c]
| [c, o] => [c, o]
| c :: o :: t :: rest2 =>
  if c.toLower = 'd' && o.toLower = 'o' && t.toLower = 't' &&
      boundaryBeforeWord prev && boundaryAfterWord rest2
  then '.' :: subDotGo (some t) rest2
  else c :: subDotGo (some c) (o :: t :: rest2)

/-- Leftmost-match search: try a position matcher at every suffix, left to
right, returning the first match (Python `re.search`). -/
def searchGo (f : List Char → Option (List Char)) : List Char → Option (List Char)
| [] => none
| c :: rest =>
  match f (c :: rest) with
  | some m => some m
  | none => searchGo f rest

/-- The greedy split of the post-`@` run for `[\w\.-]+\.\w{2,}`: the largest
`k ≥ 1` such that the run has a `.` at index `k` followed by at least two word
characters; returns the part before the dot and the maximal word run after it
(the greedy end of the match). -/
def dotSplitGreedy (r2 : List Char) : Option (List Char × List Char) :=
(List.range r2.length).reverse.findSome? fun k =>
  if 1 ≤ k && (r2.drop k).head? = some '.' then
    let w := (r2.drop (k + 1)).takeWhile wordChar
    if 2 ≤ w.length then some (r2.take k, w) else none
  else none

/-- Match `[\w\.-]+@[\w\.-]+\.\w{2,}` (ticket_manager.py line 227) anchored at
the current position.  Because the class `[\w\.-]` excludes `@`, the first run
must be maximal and immediately followed by `@`; greedy backtracking of the
second run amounts to choosing the largest dot index that leaves at least two
word characters. -/
def emailMatchAt (l : List Char) : Option (List Char) :=
let r1 := l.takeWhile emailChar
if r1.isEmpty then none
else
  match l.drop r1.length with
  | '@' :: rest =>
    let r2 := rest.takeWhile emailChar
    match dotSplitGreedy r2 with
    | some (b, w) => some (r1 ++ '@' :: (b ++ '.' :: w))
    | none => none
  | _ => none

/-- `re.search` of the strict email pattern. -/
def strictEmailSearch (l : List Char) : Option (List Char) :=
searchGo emailMatchAt l

/-- Match `([\w\.-]+)\s*(?:@|$)` (ticket_manager.py line 233) anchored at the
current position, returning group 1.  The classes `[\w\.-]` and `\s` exclude
`@`, so backtracking of the greedy runs cannot produce further matches: the
maximal class run followed by the maximal whitespace run must be followed by
`@` or the end of the string. -/
def usernameMatchAt (l : List Char) : Option (List Char) :=
let r := l.takeWhile emailChar
if r.isEmpty then none
else
  let rest := l.drop r.length
  let rest2 := rest.drop (rest.takeWhile pyWs).length
  match rest2 with
  | [] => some r
  | '@' :: _ => some r
  | _ => none

/-- `re.search` of the username pattern, group 1 of the first match. -/
def usernameSearch (l : List Char) : Option (List Char) :=
searchGo usernameMatchAt l

/-- Exactly `n` digits (`\d{n}`) at the current position. -/
def digitsN (n : ℕ) (l : List Char) : Option (List Char) :=
if (l.take n).length = n && (l.take n).all Char.isDigit
then some (l.take n) else none

/-- The separator class `[-.\s]` of the phone patterns. -/
def sepChar (c : Char) : Bool := c = '-' || c = '.' || pyWs c

/-- Greedy `1?` in front of a continuation: if a `1` is present consume it
first, falling back to leaving it for the continuation. -/
def opt1 (core : List Char → Option (List Char)) (l : List Char) :
    Option (List Char) :=
match l with
| '1' :: t =>
  match core t with
  | some m => some ('1' :: m)
  | none => core l
| _ => core l

/-- Greedy `\+?` then `1?` in front of a continuation.  When the `+` is not
consumed no continuation can match it, so the fallback is the direct attempt. -/
def optPlus1 (core : List Char → Option (List Char)) (l : List Char) :
    Option (List Char) :=
match l with
| '+' :: t =>
  match opt1 core t with
  | some m => some ('+' :: m)
  | none => opt1 core l
| _ => opt1 core l

/-- Match `\+?1?\d{10}` (phone pattern 1, ticket_manager.py line 250) anchored
at the current position. -/
def phoneMatchAt1 (l : List Char) : Option (List Char) :=
optPlus1 (digitsN 10) l

/-- Core of phone pattern 2: `\d{3}[-.\s]\d{3}[-.\s]\d{4}`. -/
def phoneCore2 (l : List Char) : Option (List Char) :=
match digitsN 3 l with
| none => none
| some d1 =>
  match l.drop 3 with
  | s1 :: l2 =>
    if sepChar s1 then
      match digitsN 3 l2 with
      | none => none
      | some d2 =>
        match l2.drop 3 with
        | s2 :: l3 =>
          if sepChar s2 then
            match digitsN 4 l3 with
            | none => none
            | some d3 => some (d1 ++ s1 :: (d2 ++ s2 :: d3))
          else none
        | [] => none
    else none
  | [] => none

/-- Match `\+?1?\d{3}[-.\s]\d{3}[-.\s]\d{4}` (phone pattern 2,
ticket_manager.py line 251) anchored at the current position. -/
def phoneMatchAt2 (l : List Char) : Option (List Char) :=
optPlus1 phoneCore2 l

/-- Core of phone pattern 3: `\(\d{3}\)\s*\d{3}[-.\s]\d{4}`. -/
def phoneCore3 (l : List Char) : Option (List Char) :=
match l with
| '(' :: l1 =>
  match digitsN 3 l1 with
  | none => none
  | some d1 =>
    match l1.drop 3 with
    | ')' :: l3 =>
      let ws := l3.takeWhile pyWs
      let l4 := l3.drop ws.length
      match digitsN 3 l4 with
      | none => none
      | some d2 =>
        match l4.drop 3 with
        | s :: l5 =>
          if sepChar s then
            match digitsN 4 l5 with
            | none => none
            | some d3 =>
              some ('(' :: (d1 ++ ')' :: (ws ++ d2 ++ s :: d3)))
          else none
        | [] => none
    | _ => none
| _ => none

/-- Match `\+?1?\(\d{3}\)\s*\d{3}[-.\s]\d{4}` (phone pattern 3,
ticket_manager.py line 252) anchored at the current position. -/
def phoneMatchAt3 (l : List Char) : Option (List Char) :=
optPlus1 phoneCore3 l

/-- `re.search` of the three phone patterns. -/
def phoneSearch1 (l : List Char) : Option (List Char) := searchGo phoneMatchAt1 l

/-- `re.search` of phone pattern 2. -/
def phoneSearch2 (l : List Char) : Option (List Char) := searchGo phoneMatchAt2 l

/-- `re.search` of phone pattern 3. -/
def phoneSearch3 (l : List Char) : Option (List Char) := searchGo phoneMatchAt3 l

/-- The phone loop of `extract_contact_info` (ticket_manager.py lines
255-260): try the three patterns in order, first match wins. -/
def extractPhone (l : List Char) : Option (List Char) :=
match phoneSearch1 l with
| some m => some m
| none =>
  match phoneSearch2 l with
  | some m => some m
  | none => phoneSearch3 l

/-- Python substring test `pat in l`. -/
def hasSubSeq (pat : List Char) : List Char → Bool
| [] => pat.isEmpty
| c :: t => pat.isPrefixOf (c :: t) || hasSubSeq pat t

/-- Python substring test on strings. -/
def hasSubStr (pat s : String) : Bool := hasSubSeq pat.data s.data

/-- Python `str.lower()` on the ASCII inputs at hand. -/
def lowerStr (s : String) : String := String.mk (s.data.map Char.toLower)

/-- The `{email, phone}` result of `extract_contact_info`. -/
structure ContactInfo where
  email : Option String
  phone : Option String
deriving DecidableEq, Repr

/-- `TicketManager.extract_contact_info` (ticket_manager.py lines 195-264):
join the user messages among the last five context messages with the current
message, normalize spoken "at"/"dot", try the strict email pattern, fall back
to synthesizing `username@provider.com` for a known provider, and run the
three phone patterns on the original combined text. -/
def extractContactInfo (ctxOpt : Option ConversationContext) (message : String) :
    ContactInfo :=
let recents : List String :=
  match ctxOpt with
  | some ctx =>
    (ConversationContext.pyLastSlice 5 ctx.messages).filterMap
      (fun m => if m.role = "user" then some m.content else none)
  | none => []
let combined := String.intercalate " " (recents ++ [message])
let processed := String.mk (subDotGo none (subAtGo none combined.data))
let email :=
  match strictEmailSearch processed.data with
  | some m => some (String.mk m)
  | none =>
    match usernameSearch processed.data with
    | some u =>
      let lowp := lowerStr processed
      if hasSubStr "gmail" lowp then some (String.mk u ++ "@gmail.com")
      else if hasSubStr "yahoo" lowp then some (String.mk u ++ "@yahoo.com")
      else if hasSubStr "hotmail" lowp then some (String.mk u ++ "@hotmail.com")
      else if hasSubStr "outlook" lowp then some (String.mk u ++ "@outlook.com")
      else none
    | none => none
let phone := (extractPhone combined.data).map String.mk
{ email := email, phone := phone }

/-- The character class `[a-zA-Z0-9._%+-]` of the email validator. -/
def emailLocalChar (c : Char) : Bool :=
c.isAlphanum || c = '.' || c = '_' || c = '%' || c = '+' || c = '-'

/-- The character class `[a-zA-Z0-9.-]` of the email validator. -/
def emailDomChar (c : Char) : Bool := c.isAlphanum || c = '.' || c = '-'

/-- `TicketManager._validate_email` (ticket_manager.py lines 36-39):
`re.match(r'^[a-zA-Z0-9._%+-]+@[a-zA-Z0-9.-]+\.[a-zA-Z]{2,}$', email)`.
The local class excludes `@`, so the local part is the maximal run before the
first `@`; the final `[a-zA-Z]{2,}` excludes `.`, so the anchored match
succeeds exactly when the suffix after the last dot of the domain is two or
more letters and the rest of the domain is a nonempty domain-class run. -/
def validateEmail (s : String) : Bool :=
let cs := s.data
let localPart := cs.takeWhile emailLocalChar
match cs.drop localPart.length with
| '@' :: r =>
  let tld := (r.reverse.takeWhile (fun c => c ≠ '.')).reverse
  let hasDot := r.length > tld.length
  let dom := r.take (r.length - tld.length - 1)
  !localPart.isEmpty && hasDot && !dom.isEmpty && dom.all emailDomChar &&
    decide (2 ≤ tld.length) && tld.all Char.isAlpha
| _ => false

/-- `TicketManager._validate_phone` (ticket_manager.py lines 41-50): strip
`[\s\-\(\)\.]`, then anchored-match `^\+?1?\d{10,14}$` (greedy optionals with
backtracking: a leading `+` must be consumed, a leading `1` may either be the
country code or the first digit). -/
def validatePhone (s : String) : Bool :=
let cleaned := s.data.filter
  (fun c => !(pyWs c || c = '-' || c = '(' || c = ')' || c = '.'))
let tailOk := fun (l : List Char) =>
  l.all Char.isDigit && decide (10 ≤ l.length) && decide (l.length ≤ 14)
let afterPlus := match cleaned with | '+' :: t => t | _ => cleaned
match afterPlus with
| '1' :: t => tailOk t || tailOk afterPlus
| _ => tailOk afterPlus

/-- The urgency keywords of `_determine_priority` (ticket_manager.py line 66). -/
def urgentKeywords : List String :=
["urgent", "emergency", "critical", "broken", "error"]

/-- `TicketManager._determine_priority` (ticket_manager.py lines 63-78): join
the lower-cased contents of the user-role messages among the last three
messages and return "high" when any urgency keyword occurs in the joined
text, else "medium". -/
def determinePriority (ctx : ConversationContext) : String :=
let recent := String.intercalate " "
  ((ConversationContext.pyLastSlice 3 ctx.messages).filterMap
    (fun m => if m.role = "user" then some (lowerStr m.content) else none))
if urgentKeywords.any (fun k => hasSubStr k recent) then "high" else "medium"

/-! ### The flow orchestrator (flow.py)

Remote collaborators are oracle fields of `Collabs`; a turn additionally
returns the list of `Event`s recording, in order, which collaborators it
invoked and which state transitions it made. -/

/-- An observable effect of one turn. -/
inductive Event
| classify (text : String)
| kbSearch (query : String)
| ticketAttempt
| apiTicket
| genResponse
| transition (s : ConversationState)
deriving DecidableEq, Repr

/-- Failure modes of `TicketManager.create_ticket`: the local `ValueError`s of
the validation gate (lines 110-127), or a failure of the remote Kayako API. -/
inductive TicketError
| validation (msg : String)
| api
deriving DecidableEq, Repr

/-- The remote collaborators of the orchestrator: the GPT intent classifier
(`detect_intent`, which fails when the backing call errors or returns a value
outside the `Intent` enum), the KB search engine, the Kayako ticket API (user
lookup/creation and ticket POST collapsed into one call), and the GPT
response generator. -/
structure Collabs where
  detectIntent : String → Except Unit (Intent × List Entity)
  kbSearch : String → Option String
  apiCreateTicket : Except Unit String
  genResponse : ConversationContext → String

/-- Python `context.metadata.get(k)`: `None` when the key is absent or when
`None` was stored under it. -/
def metaGet (ctx : ConversationContext) (k : String) : Option String :=
(alistGet ctx.metadata k).join

/-- flow.py lines 112-113 / 140-141: store `contact_info.get("email")` and
`contact_info.get("phone")` (possibly `None`) into `context.metadata`. -/
def storeContact (ctx : ConversationContext) (ci : ContactInfo) :
    ConversationContext :=
{ ctx with
  metadata := alistSet (alistSet ctx.metadata "email" ci.email) "phone" ci.phone }

/-- `TicketManager.create_ticket` (ticket_manager.py lines 80-193): the
validation gate raises before any remote call when neither contact field is
present or when a present field fails its validator; otherwise the remote
interaction happens (one `apiTicket` event) and its failure is re-raised.
The context is threaded through unchanged on every path, as the source never
writes to it. -/
def createTicket (c : Collabs) (ctx : ConversationContext)
    (_subject _contents : String) (email phone : Option String) :
    ConversationContext × Except TicketError String × List Event :=
if email.isNone && phone.isNone then
  (ctx, .error (.validation "Either email or phone number must be provided"), [])
else if (match email with | some e => !validateEmail e | none => false) then
  (ctx, .error (.validation "Invalid email format"), [])
else if (match phone with | some p => !validatePhone p | none => false) then
  (ctx, .error (.validation "Invalid phone number format"), [])
else
  match c.apiCreateTicket with
  | .ok tid => (ctx, .ok tid, [.apiTicket])
  | .error _ => (ctx, .error .api, [.apiTicket])

/-- Response of `_create_support_ticket` on success (flow.py line 213). -/
def ticketSuccessResponse : String :=
"I\x27ve created a support ticket with our complete conversation. Thank you for contacting us. Have a great day!"

/-- Response of `_create_support_ticket` on failure (flow.py line 216). -/
def ticketFailResponse : String :=
"I\x27m having trouble creating your ticket. Please try again later."

/-- `ConversationFlowManager._create_support_ticket` (flow.py lines 179-216):
compose the ticket contents from the history, call `create_ticket` with the
stored metadata contact fields, and convert any exception into a
`(False, apology)` result. -/
def createSupportTicket (c : Collabs) (ctx : ConversationContext) :
    Bool × String × List Event :=
let initialIssue :=
  ((ctx.messages.find? fun m =>
      m.role = "user" && (extractContactInfo none m.content).email.isNone).map
    Message.content).getD "No clear issue stated"
let history := String.intercalate "\n"
  ((ctx.messages.filter fun m =>
      !((m.role = "assistant" && hasSubStr "email address" (lowerStr m.content)) ||
        (m.role = "user" && (extractContactInfo none m.content).email.isSome))).map
    fun m => m.role ++ ": " ++ m.content)
let contents := "User Issue: " ++ initialIssue ++ "\n\nConversation History:\n" ++ history
match createTicket c ctx "Support Request from Voice Call" contents
    (metaGet ctx "email") (metaGet ctx "phone") with
| (_, .ok _, ev) => (true, ticketSuccessResponse, .ticketAttempt :: ev)
| (_, .error _, ev) => (false, ticketFailResponse, .ticketAttempt :: ev)

/-- Generic recovery response of the inner `except` of `process_message`
(flow.py line 165). -/
def troubleResponse : String :=
"I\x27m having trouble processing your request. Could you please rephrase that or let me know if you\x27d like to speak with a human agent?"

/-- Response when the KB has no match (flow.py lines 132 / 276). -/
def noKbResponse : String :=
"I apologize, but I couldn\x27t find a specific solution for your issue in our knowledge base. Let me create a support ticket so our team can assist you. Could you please provide your email address?"

/-- Response when no contact info was found in CREATING_TICKET (flow.py
lines 150 / 306). -/
def askContactResponse : String :=
"I couldn\x27t find a valid email address or phone number. Could you please provide one?"

/-- `ConversationFlowManager._handle_state` (flow.py lines 218-320) for the
states `process_message` can reach it with (everything except
COLLECTING_ISSUE and CREATING_TICKET, which lines 107-150 handle first).
The `.error` results embed the `AttributeError` raised by evaluating the
nonexistent `Intent.END_CONVERSATION` (line 313) when, in ENDED, the intent
is neither CONFIRM nor DENY; the COLLECTING_ISSUE and CREATING_TICKET
branches are unreachable from `process_message` and their code also
dereferences `Intent.END_CONVERSATION` (line 251), so they are embedded as
the same failure. -/
def handleState (c : Collabs) (ctx : ConversationContext)
    (_message : String) (intent : Intent) :
    Except Unit (ConversationContext × String × List Event) :=
match ctx.current_state with
| .greeting =>
  .ok (ctx.transitionState .collectingIssue, "Hello! How can I help you today?",
    [.transition .collectingIssue])
| .providingSolution =>
  if intent = .confirm then
    .ok (ctx.transitionState .ended,
      "Great! Is there anything else I can help you with?", [.transition .ended])
  else if intent = .deny then
    .ok (ctx.transitionState .creatingTicket,
      "I\x27m sorry the information wasn\x27t helpful. Let me create a ticket for further assistance. Could you please provide your email address?",
      [.transition .creatingTicket])
  else
    .ok (ctx, c.genResponse ctx, [.genResponse])
| .ended =>
  if intent = .confirm then
    .ok (ctx.transitionState .collectingIssue, "What else can I help you with?",
      [.transition .collectingIssue])
  else if intent = .deny then
    .ok (ctx, "Thank you for contacting us. Have a great day!", [])
  else .error ()
| .searchingKb => .ok (ctx, c.genResponse ctx, [.genResponse])
| .collectingIssue => .error ()
| .creatingTicket => .error ()

/-- `ConversationFlowManager.process_message` (flow.py lines 94-165, the body
of the inner `try` for an existing conversation; `kbReady` models
`self.initialized`).  Classification runs first; its failure is caught by the
inner `except`, which returns the generic recovery response with the context
untouched.  On success the user message is recorded, then COLLECTING_ISSUE
checks contact info before any KB search (early return on the escalation
path), CREATING_TICKET returns early in both of its branches, and the
remaining states go through `_handle_state` and fall through to the final
assistant `add_message`. -/
def processMessage (c : Collabs) (kbReady : Bool) (ctx : ConversationContext)
    (message : String) : ConversationContext × String × List Event :=
match c.detectIntent message with
| .error _ => (ctx, troubleResponse, [.classify message])
| .ok (intent, entities) =>
  let ctx1 := ctx.addMessage "user" message (some intent) entities
  if ctx1.current_state = .collectingIssue then
    let ci := extractContactInfo (some ctx1) message
    if ci.email.isSome || ci.phone.isSome then
      let ctx3 := (storeContact ctx1 ci).transitionState .creatingTicket
      match createSupportTicket c ctx3 with
      | (true, resp, ev) =>
        (ctx3.transitionState .ended, resp,
          .classify message :: .transition .creatingTicket :: (ev ++ [.transition .ended]))
      | (false, resp, ev) =>
        (ctx3, resp, .classify message :: .transition .creatingTicket :: ev)
    else
      match (if kbReady then c.kbSearch message else none) with
      | some s =>
        let resp := s ++ "\n\nWas this information helpful?"
        ((ctx1.transitionState .providingSolution).addMessage "assistant" resp, resp,
          .classify message ::
            ((if kbReady then [Event.kbSearch message] else []) ++
              [.transition .providingSolution]))
      | none =>
        ((ctx1.transitionState .creatingTicket).addMessage "assistant" noKbResponse,
          noKbResponse,
          .classify message ::
            ((if kbReady then [Event.kbSearch message] else []) ++
              [.transition .creatingTicket]))
  else if ctx1.current_state = .creatingTicket then
    let ci := extractContactInfo (some ctx1) message
    if ci.email.isSome || ci.phone.isSome then
      let ctx2 := storeContact ctx1 ci
      match createSupportTicket c ctx2 with
      | (true, resp, ev) =>
        (ctx2.transitionState .ended, resp,
          .classify message :: (ev ++ [.transition .ended]))
      | (false, resp, ev) => (ctx2, resp, .classify message :: ev)
    else
      (ctx1, askContactResponse, [.classify message])
  else
    match handleState c ctx1 message intent with
    | .ok (ctx2, resp, ev) =>
      (ctx2.addMessage "assistant" resp, resp, .classify message :: ev)
    | .error _ => (ctx1, troubleResponse, [.classify message])

/-! ### Helper lemmas -/

lemma alistGet_alistSet_self {α : Type} (l : List (String × α)) (k : String) (v : α) :
    alistGet (alistSet l k v) k = some v := by
  induction l with
  | nil => simp [alistGet, alistSet, List.find?]
  | cons p rest ih =>
    obtain ⟨k0, v0⟩ := p
    by_cases hk : k0 = k
    · simp [alistGet, alistSet, List.find?, hk]
    · simpa [alistGet, alistSet, List.find?, hk] using ih

lemma alistGet_alistSet_ne {α : Type} (l : List (String × α)) (k t : String) (v : α)
    (h : t ≠ k) :
    alistGet (alistSet l k v) t = alistGet l t := by
  induction l with
  | nil => simp [alistGet, alistSet, List.find?, Ne.symm h]
  | cons p rest ih =>
    obtain ⟨k0, v0⟩ := p
    by_cases hk : k0 = k
    · subst hk
      simp [alistGet, alistSet, List.find?, Ne.symm h]
    · by_cases ht : k0 = t
      · subst ht
        simp [alistGet, alistSet, List.find?, hk]
      · simpa [alistGet, alistSet, List.find?, hk, ht] using ih

lemma addMessage_current_state (ctx : ConversationContext) (r c : String)
    (i : Option Intent) (es : List Entity) :
    (ctx.addMessage r c i es).current_state = ctx.current_state := rfl

lemma addMessage_messages (ctx : ConversationContext) (r c : String)
    (i : Option Intent) (es : List Entity) :
    (ctx.addMessage r c i es).messages =
      ctx.messages ++ [{ role := r, content := c, intent := i, entities := es }] := rfl

lemma addMessage_metadata (ctx : ConversationContext) (r c : String)
    (i : Option Intent) (es : List Entity) :
    (ctx.addMessage r c i es).metadata = ctx.metadata := rfl

/-! ### Claim C2 — the Intent enum has no END_CONVERSATION member -/

/-- C2: the spec and flow.py (lines 251 and 313) assume a ninth member
`END_CONVERSATION` of the closed Intent set, and the classifier prompt in
handler.py instructs the model to answer "end_conversation"; but the `Intent`
enum of state.py has only the eight members embedded above, so
`Intent("end_conversation")` raises `ValueError` (here: `Intent.ofString`
returns `none`) and no Intent value carries that string.  The code contradicts
its own callers, so the enum is missing a member the rest of the code relies
on. -/
theorem end_conversation_not_constructible :
    Intent.ofString "end_conversation" = none ∧
      ∀ i : Intent, i.value ≠ "end_conversation" := by
  constructor
  · rfl
  · intro i; cases i <;> decide

/-! ### Claim C3 — create_ticket with no contact info -/

/-- C3: for every context and collaborator behavior, `create_ticket` called
with `email=None` and `phone=None` fails on the validation gate (the
`ValueError` of ticket_manager.py line 111), produces no collaborator event
(the remote ticketing API is never reached), and leaves every field of the
conversation context unchanged. -/
theorem create_ticket_requires_contact_and_preserves_context :
    ∀ (c : Collabs) (ctx : ConversationContext) (subject contents : String),
      (createTicket c ctx subject contents none none).2.1 =
        .error (.validation "Either email or phone number must be provided") ∧
      (createTicket c ctx subject contents none none).2.2 = [] ∧
      (createTicket c ctx subject contents none none).1 = ctx ∧
      (createTicket c ctx subject contents none none).1.current_state = ctx.current_state ∧
      (createTicket c ctx subject contents none none).1.messages = ctx.messages ∧
      (createTicket c ctx subject contents none none).1.detected_entities = ctx.detected_entities ∧
      (createTicket c ctx subject contents none none).1.last_intent = ctx.last_intent ∧
      (createTicket c ctx subject contents none none).1.metadata = ctx.metadata := by
  intro c ctx subject contents
  exact ⟨rfl, rfl, rfl, rfl, rfl, rfl, rfl, rfl⟩

/-! ### Claim C4 — entity confidence monotonicity -/

/-- The confidence stored in `detected_entities` for a type, an absent entry
counting as 0.0 (the default entity of state.py line 68). -/
def entityConf (d : List (String × Entity)) (t : String) : ℚ :=
((alistGet d t).map Entity.confidence).getD 0

lemma entityConf_storeEntity_le (d : List (String × Entity)) (e : Entity)
    (t : String) :
    entityConf d t ≤ entityConf (ConversationContext.storeEntity d e) t := by
  unfold ConversationContext.storeEntity
  by_cases hc : e.confidence >
      ((alistGet d e.type).getD { type := "", value := "", confidence := 0 }).confidence
  · rw [if_pos hc]
    by_cases ht : t = e.type
    · subst ht
      unfold entityConf
      rw [alistGet_alistSet_self]
      cases hx : alistGet d e.type with
      | none =>
        rw [hx] at hc
        simp only [Option.getD_none] at hc
        simpa using le_of_lt hc
      | some x =>
        rw [hx] at hc
        simp only [Option.getD_some] at hc
        simpa [hx] using le_of_lt hc
    · unfold entityConf
      rw [alistGet_alistSet_ne _ _ _ _ ht]
  · rw [if_neg hc]

lemma storeEntity_get_eq_or_lt (d : List (String × Entity)) (e : Entity)
    (t : String) :
    alistGet (ConversationContext.storeEntity d e) t = alistGet d t ∨
      entityConf d t < entityConf (ConversationContext.storeEntity d e) t := by
  unfold ConversationContext.storeEntity
  by_cases hc : e.confidence >
      ((alistGet d e.type).getD { type := "", value := "", confidence := 0 }).confidence
  · rw [if_pos hc]
    by_cases ht : t = e.type
    · subst ht
      right
      unfold entityConf
      rw [alistGet_alistSet_self]
      cases hx : alistGet d e.type with
      | none =>
        rw [hx] at hc
        simp only [Option.getD_none] at hc
        simpa using hc
      | some x =>
        rw [hx] at hc
        simp only [Option.getD_some] at hc
        simpa [hx] using hc
    · left
      exact alistGet_alistSet_ne _ _ _ _ ht
  · rw [if_neg hc]
    left
    rfl

lemma entityConf_foldl_le (es : List Entity) (d : List (String × Entity))
    (t : String) :
    entityConf d t ≤ entityConf (es.foldl ConversationContext.storeEntity d) t := by
  induction es generalizing d with
  | nil => simp
  | cons e es ih =>
    exact le_trans (entityConf_storeEntity_le d e t) (ih _)

lemma foldl_storeEntity_get_eq_or_lt (es : List Entity)
    (d : List (String × Entity)) (t : String) :
    alistGet (es.foldl ConversationContext.storeEntity d) t = alistGet d t ∨
      entityConf d t < entityConf (es.foldl ConversationContext.storeEntity d) t := by
  induction es generalizing d with
  | nil => left; rfl
  | cons e es ih =>
    rw [List.foldl_cons]
    rcases storeEntity_get_eq_or_lt d e t with h1 | h1
    · rcases ih (ConversationContext.storeEntity d e) with h2 | h2
      · left; rw [h2, h1]
      · right
        have heq : entityConf (ConversationContext.storeEntity d e) t = entityConf d t := by
          unfold entityConf; rw [h1]
        rw [heq] at h2
        exact h2
    · right
      exact lt_of_lt_of_le h1 (entityConf_foldl_le es _ t)

/-- One recorded `add_message` call. -/
structure MsgCall where
  role : String
  content : String
  intent : Option Intent := none
  entities : List Entity := []

/-- A sequence of `add_message` calls applied in order. -/
def applyCalls (ctx : ConversationContext) (calls : List MsgCall) :
    ConversationContext :=
calls.foldl (fun c a => c.addMessage a.role a.content a.intent a.entities) ctx

lemma entityConf_applyCalls_le (calls : List MsgCall) (ctx : ConversationContext)
    (t : String) :
    entityConf ctx.detected_entities t ≤
      entityConf (applyCalls ctx calls).detected_entities t := by
  induction calls generalizing ctx with
  | nil => exact le_refl _
  | cons a calls ih =>
    exact le_trans
      (entityConf_foldl_le a.entities ctx.detected_entities t)
      (ih (ctx.addMessage a.role a.content a.intent a.entities))

/-- C4: for every entity type, `add_message` never lowers the stored
confidence (an absent entry counting as 0), the stored entry changes only
when the incoming confidence is strictly greater, and consequently the stored
confidence is non-decreasing over every sequence of `add_message` calls. -/
theorem detected_entity_confidence_monotone :
    ∀ (ctx : ConversationContext) (role content : String) (intent : Option Intent)
      (entities : List Entity) (t : String) (calls : List MsgCall),
      entityConf ctx.detected_entities t ≤
        entityConf (ctx.addMessage role content intent entities).detected_entities t ∧
      (alistGet (ctx.addMessage role content intent entities).detected_entities t =
          alistGet ctx.detected_entities t ∨
        entityConf ctx.detected_entities t <
          entityConf (ctx.addMessage role content intent entities).detected_entities t) ∧
      entityConf ctx.detected_entities t ≤
        entityConf (applyCalls ctx calls).detected_entities t := by
  intro ctx role content intent entities t calls
  exact ⟨entityConf_foldl_le entities ctx.detected_entities t,
    foldl_storeEntity_get_eq_or_lt entities ctx.detected_entities t,
    entityConf_applyCalls_le calls ctx t⟩

/-! ### Claim C7 — context window idempotence and system head -/

/-- C7: `get_context_window` performs no writes (the returned post-context is
the input context), so two consecutive calls return identical content; and
the returned list always starts with the synthesized system entry embedding
state, entities and last intent — also when the message history is empty, in
which case the window is exactly the system entry. -/
theorem context_window_idempotent_system_head :
    ∀ (ctx : ConversationContext) (n : ℕ),
      (ctx.getContextWindow n).1 = ctx ∧
      ((ctx.getContextWindow n).1.getContextWindow n).2 = (ctx.getContextWindow n).2 ∧
      (ctx.getContextWindow n).2.head? =
        some { role := "system", content := ctx.systemPrompt } ∧
      (ctx.messages = [] →
        (ctx.getContextWindow n).2 =
          [{ role := "system", content := ctx.systemPrompt }]) := by
  intro ctx n
  refine ⟨rfl, rfl, rfl, ?_⟩
  intro h
  simp [ConversationContext.getContextWindow, ConversationContext.pyLastSlice, h]

/-- An empty conversation context. -/
def emptyCtx : ConversationContext :=
{ conversation_id := "w7", current_state := .greeting }

/-- C7 witness: the context window of a context with empty history is exactly
the system entry. -/
theorem context_window_idempotent_system_head_witness :
    (emptyCtx.getContextWindow 10).2 =
      [{ role := "system", content := emptyCtx.systemPrompt }] :=
  (context_window_idempotent_system_head emptyCtx 10).2.2.2 rfl

/-! ### Claim C5 — spoken email normalization -/

/-- The spoken-email input of the spec example. -/
def spokenEmailInput : String := "my email is john dot smith at gmail dot com"

/-- C5 counterexample: on `"my email is john dot smith at gmail dot com"` the
extractor does NOT return `john.smith@gmail.com`.  The word-boundary
substitutions keep the surrounding spaces, producing
`"my email is john . smith @ gmail . com"`; the strict pattern therefore
fails, and the partial-reconstruction fallback captures only `smith` (the
token immediately before `@`), synthesizing `smith@gmail.com`. -/
theorem spoken_email_normalization_counterexample :
    (extractContactInfo none spokenEmailInput).email ≠ some "john.smith@gmail.com" ∧
      (extractContactInfo none spokenEmailInput).email = some "smith@gmail.com" := by
  constructor
  · decide
  · decide

/-- C5 amended: the extractor applied to the spoken-email example returns
`{email: "smith@gmail.com", phone: None}` via the partial-reconstruction
fallback. -/
theorem spoken_email_normalization_amended :
    extractContactInfo none spokenEmailInput =
      { email := some "smith@gmail.com", phone := none } := by
  decide

/-! ### Claim C8 — parenthesized phone pattern -/

/-- The parenthesized-phone input of the spec example. -/
def parenPhoneInput : String := "call me at (555) 123-4567"

/-- C8: on `"call me at (555) 123-4567"` the bare-10-digit and separator
patterns find no match, the parenthesized pattern matches `(555) 123-4567`,
and the extractor (which tries the three patterns in order against the
original combined text, first match winning) returns exactly that string as
the phone. -/
theorem paren_phone_third_pattern_match :
    phoneSearch1 parenPhoneInput.data = none ∧
      phoneSearch2 parenPhoneInput.data = none ∧
      phoneSearch3 parenPhoneInput.data = some "(555) 123-4567".data ∧
      extractPhone parenPhoneInput.data = some "(555) 123-4567".data ∧
      (extractContactInfo none parenPhoneInput).phone = some "(555) 123-4567" := by
  refine ⟨by decide, by decide, by decide, by decide, by decide⟩

/-! ### Claim C9 — priority heuristic window -/

/-- The joined lower-cased text of the last `n` user-role messages of the
whole conversation (the window the claim describes). -/
def lastUserText (n : ℕ) (ctx : ConversationContext) : String :=
String.intercalate " "
  ((ConversationContext.pyLastSlice n (ctx.messages.filter fun m => m.role = "user")).map
    fun m => lowerStr m.content)

/-- The joined lower-cased text of the user-role messages among the last
three messages (the window the code actually scans: ticket_manager.py lines
69-73 slice `messages[-3:]` first and filter by role second). -/
def recentUserWindowText (ctx : ConversationContext) : String :=
String.intercalate " "
  ((ConversationContext.pyLastSlice 3 ctx.messages).filterMap
    fun m => if m.role = "user" then some (lowerStr m.content) else none)

/-- A conversation whose urgency keyword sits in the third-to-last user
message but outside the last three messages: user "this is urgent",
assistant, user "ok", assistant. -/
def priorityCtx : ConversationContext :=
{ conversation_id := "c9"
  current_state := .collectingIssue
  messages :=
    [{ role := "user", content := "this is urgent" },
     { role := "assistant", content := "let me check" },
     { role := "user", content := "ok" },
     { role := "assistant", content := "one moment" }] }

/-- C9 counterexample: the last 3 user messages of `priorityCtx` contain the
keyword "urgent", so the claim predicts priority "high"; the code slices the
last 3 messages of any role before filtering, sees only "ok", and returns
"medium". -/
theorem priority_window_counterexample :
    urgentKeywords.any (fun k => hasSubStr k (lastUserText 3 priorityCtx)) = true ∧
      determinePriority priorityCtx = "medium" := by
  constructor
  · decide
  · decide

/-- C9 amended: the priority heuristic scans the user-role messages among the
last 3 messages of the conversation (not the last 3 user messages) for the
urgency keywords, returning "high" when any keyword occurs in that joined
text and "medium" otherwise. -/
theorem priority_scans_user_messages_in_last_three :
    ∀ ctx : ConversationContext,
      determinePriority ctx =
        (if urgentKeywords.any (fun k => hasSubStr k (recentUserWindowText ctx))
         then "high" else "medium") ∧
      (determinePriority ctx = "high" ∨ determinePriority ctx = "medium") := by
  intro ctx
  have heq : determinePriority ctx =
      (if urgentKeywords.any (fun k => hasSubStr k (recentUserWindowText ctx))
       then "high" else "medium") := rfl
  refine ⟨heq, ?_⟩
  by_cases h : urgentKeywords.any (fun k => hasSubStr k (recentUserWindowText ctx)) = true
  · left; rw [heq, if_pos h]
  · right; rw [heq, if_neg h]

/-! ### Flow helper lemmas -/

lemma createTicket_events (c : Collabs) (ctx : ConversationContext)
    (s t : String) (e p : Option String) :
    (createTicket c ctx s t e p).2.2 = [] ∨
      (createTicket c ctx s t e p).2.2 = [Event.apiTicket] := by
  unfold createTicket
  split_ifs
  · left; rfl
  · left; rfl
  · left; rfl
  · cases c.apiCreateTicket <;> simp

lemma createSupportTicket_events (c : Collabs) (ctx : ConversationContext) :
    (createSupportTicket c ctx).2.2 = [Event.ticketAttempt] ∨
      (createSupportTicket c ctx).2.2 = [Event.ticketAttempt, Event.apiTicket] := by
  unfold createSupportTicket createTicket
  split_ifs
  · left; rfl
  · left; rfl
  · left; rfl
  · cases c.apiCreateTicket <;> simp

lemma storeContact_metadata_email (ctx : ConversationContext) (ci : ContactInfo) :
    alistGet (storeContact ctx ci).metadata "email" = some ci.email := by
  unfold storeContact
  rw [alistGet_alistSet_ne _ _ _ _ (by decide : "email" ≠ "phone"),
    alistGet_alistSet_self]

lemma storeContact_metadata_phone (ctx : ConversationContext) (ci : ContactInfo) :
    alistGet (storeContact ctx ci).metadata "phone" = some ci.phone := by
  unfold storeContact
  rw [alistGet_alistSet_self]

lemma storeContact_messages (ctx : ConversationContext) (ci : ContactInfo) :
    (storeContact ctx ci).messages = ctx.messages := rfl

lemma handleState_ok_messages (c : Collabs) (ctx : ConversationContext)
    (msg : String) (intent : Intent)
    (out : ConversationContext × String × List Event)
    (h : handleState c ctx msg intent = .ok out) :
    out.1.messages = ctx.messages := by
  unfold handleState at h
  cases hcs : ctx.current_state <;> rw [hcs] at h
  case greeting =>
    cases h; rfl
  case collectingIssue => cases h
  case searchingKb => cases h; rfl
  case providingSolution =>
    split_ifs at h <;> cases h <;> rfl
  case creatingTicket => cases h
  case ended =>
    split_ifs at h <;> cases h <;> rfl

/-! ### Claim C6 — classifier failure handling -/

/-- Collaborators whose classifier call always fails (the backing call errors
or returns a value outside the Intent enum, e.g. "end_conversation"). -/
def collabsFail : Collabs :=
{ detectIntent := fun _ => .error ()
  kbSearch := fun _ => none
  apiCreateTicket := .error ()
  genResponse := fun _ => "generated" }

/-- An empty COLLECTING_ISSUE conversation. -/
def ctxCollecting : ConversationContext :=
{ conversation_id := "c6", current_state := .collectingIssue }

/-- C6 counterexample: when the classifier fails (here on "goodbye", for
which the prompt instructs the unparseable answer "end_conversation"), the
turn does NOT proceed with a fallback UNKNOWN intent: no message is recorded,
`last_intent` is not set to UNKNOWN, and the orchestrator returns the generic
recovery response of the inner `except` with the context unchanged. -/
theorem classifier_failure_no_unknown_fallback :
    (processMessage collabsFail true ctxCollecting "goodbye").1 = ctxCollecting ∧
      (processMessage collabsFail true ctxCollecting "goodbye").1.messages = [] ∧
      (processMessage collabsFail true ctxCollecting "goodbye").1.last_intent ≠
        some Intent.unknown ∧
      (processMessage collabsFail true ctxCollecting "goodbye").2.1 =
        troubleResponse := by
  refine ⟨rfl, rfl, by decide, rfl⟩

/-- C6 amended: a classifier failure is caught non-fatally at the turn
boundary, but instead of falling back to UNKNOWN and proceeding, the turn is
aborted: the orchestrator returns the generic recovery response, records
nothing, and leaves the context exactly as it was. -/
theorem classifier_failure_aborts_turn :
    ∀ (c : Collabs) (kbReady : Bool) (ctx : ConversationContext) (msg : String),
      c.detectIntent msg = .error () →
      processMessage c kbReady ctx msg = (ctx, troubleResponse, [.classify msg]) := by
  intro c kbReady ctx msg h
  unfold processMessage
  rw [h]

/-- C6 witness: the amended behavior at a concrete failing classifier. -/
theorem classifier_failure_aborts_turn_witness :
    collabsFail.detectIntent "hi" = .error () ∧
      processMessage collabsFail false ctxCollecting "hi" =
        (ctxCollecting, troubleResponse, [.classify "hi"]) :=
  ⟨rfl, classifier_failure_aborts_turn collabsFail false ctxCollecting "hi" rfl⟩

/-! ### Claim C1 — contact info beats KB search in COLLECTING_ISSUE -/

/-- The contact info the COLLECTING_ISSUE branch of `process_message`
extracts: flow.py line 109 runs `extract_contact_info(message, context)`
after the user message has been added to the context. -/
def turnContactInfo (ctx : ConversationContext) (msg : String) (intent : Intent)
    (entities : List Entity) : ContactInfo :=
extractContactInfo (some (ctx.addMessage "user" msg (some intent) entities)) msg

/-- Python truthiness of `contact_info.get("email") or contact_info.get("phone")`. -/
def turnHasContact (ctx : ConversationContext) (msg : String) (intent : Intent)
    (entities : List Entity) : Bool :=
(turnContactInfo ctx msg intent entities).email.isSome ||
  (turnContactInfo ctx msg intent entities).phone.isSome

/-- C1: in COLLECTING_ISSUE, when the turn's utterance yields contact info,
the orchestrator stores both extracted fields in `context.metadata`,
transitions to CREATING_TICKET and immediately attempts ticket creation (the
event trace starts `classify, transition CREATING_TICKET, ticketAttempt`),
and the knowledge-base search is never invoked on that turn. -/
theorem collecting_issue_contact_escalates_before_kb
    (c : Collabs) (kbReady : Bool) (ctx : ConversationContext) (msg : String)
    (intent : Intent) (entities : List Entity)
    (h1 : c.detectIntent msg = .ok (intent, entities))
    (h2 : ctx.current_state = .collectingIssue)
    (h3 : turnHasContact ctx msg intent entities = true) :
    alistGet (processMessage c kbReady ctx msg).1.metadata "email" =
      some (turnContactInfo ctx msg intent entities).email ∧
    alistGet (processMessage c kbReady ctx msg).1.metadata "phone" =
      some (turnContactInfo ctx msg intent entities).phone ∧
    (∃ rest, (processMessage c kbReady ctx msg).2.2 =
      .classify msg :: .transition .creatingTicket :: .ticketAttempt :: rest) ∧
    (∀ q, Event.kbSearch q ∉ (processMessage c kbReady ctx msg).2.2) := by
  have h2' : (ctx.addMessage "user" msg (some intent) entities).current_state =
      ConversationState.collectingIssue := by
    rw [addMessage_current_state, h2]
  have h3' : ((extractContactInfo
        (some (ctx.addMessage "user" msg (some intent) entities)) msg).email.isSome ||
      (extractContactInfo
        (some (ctx.addMessage "user" msg (some intent) entities)) msg).phone.isSome) =
      true := h3
  rcases hcs : createSupportTicket c
      ((storeContact (ctx.addMessage "user" msg (some intent) entities)
        (extractContactInfo (some (ctx.addMessage "user" msg (some intent) entities))
          msg)).transitionState .creatingTicket)
    with ⟨b, resp, ev⟩
  have hevs := createSupportTicket_events c
    ((storeContact (ctx.addMessage "user" msg (some intent) entities)
      (extractContactInfo (some (ctx.addMessage "user" msg (some intent) entities))
        msg)).transitionState .creatingTicket)
  rw [hcs] at hevs
  simp only at hevs
  cases b
  · have hpm : processMessage c kbReady ctx msg =
        ((storeContact (ctx.addMessage "user" msg (some intent) entities)
            (extractContactInfo (some (ctx.addMessage "user" msg (some intent) entities))
              msg)).transitionState .creatingTicket,
          resp, .classify msg :: .transition .creatingTicket :: ev) := by
      unfold processMessage
      simp only [h1]
      rw [if_pos h2', if_pos h3']
      rw [hcs]
    rw [hpm]
    refine ⟨storeContact_metadata_email _ _, storeContact_metadata_phone _ _, ?_, ?_⟩
    · rcases hevs with h | h <;> rw [h]
      · exact ⟨[], rfl⟩
      · exact ⟨[Event.apiTicket], rfl⟩
    · intro q
      rcases hevs with h | h <;> rw [h] <;> simp
  · have hpm : processMessage c kbReady ctx msg =
        (((storeContact (ctx.addMessage "user" msg (some intent) entities)
            (extractContactInfo (some (ctx.addMessage "user" msg (some intent) entities))
              msg)).transitionState
              .creatingTicket).transitionState .ended,
          resp, .classify msg :: .transition .creatingTicket ::
            (ev ++ [.transition .ended])) := by
      unfold processMessage
      simp only [h1]
      rw [if_pos h2', if_pos h3']
      rw [hcs]
    rw [hpm]
    refine ⟨storeContact_metadata_email _ _, storeContact_metadata_phone _ _, ?_, ?_⟩
    · rcases hevs with h | h <;> rw [h]
      · exact ⟨[Event.transition .ended], rfl⟩
      · exact ⟨[Event.apiTicket, Event.transition .ended], rfl⟩
    · intro q
      rcases hevs with h | h <;> rw [h] <;> simp

/-- Collaborators that classify every utterance as UNKNOWN with no entities,
find no KB article, and succeed in creating tickets. -/
def collabsOk : Collabs :=
{ detectIntent := fun _ => .ok (.unknown, [])
  kbSearch := fun _ => none
  apiCreateTicket := .ok "TICKET-1"
  genResponse := fun _ => "generated" }

/-- An empty COLLECTING_ISSUE conversation for the C1 witness. -/
def ctxCollectingW : ConversationContext :=
{ conversation_id := "c1", current_state := .collectingIssue }

/-- C1 witness: a COLLECTING_ISSUE turn whose utterance is a plain email
address stores it in the metadata. -/
theorem collecting_issue_contact_escalates_before_kb_witness :
    turnHasContact ctxCollectingW "john@gmail.com" .unknown [] = true ∧
      alistGet (processMessage collabsOk true ctxCollectingW "john@gmail.com").1.metadata
          "email" =
        some (turnContactInfo ctxCollectingW "john@gmail.com" .unknown []).email :=
  ⟨by decide,
    (collecting_issue_contact_escalates_before_kb collabsOk true ctxCollectingW
      "john@gmail.com" .unknown [] rfl rfl (by decide)).1⟩

/-! ### Claim C10 — where the assistant reply is recorded -/

/-- The message record the user turn appends (flow.py lines 99-104). -/
def userRecord (msg : String) (intent : Intent) (entities : List Entity) : Message :=
{ role := "user", content := msg, intent := some intent, entities := entities }

/-- The message record the final `add_message` appends (flow.py lines 156-159). -/
def assistantRecord (resp : String) : Message :=
{ role := "assistant", content := resp }

/-- C10: after a successful classification, the early-return paths — the
contact-info branch of COLLECTING_ISSUE, every CREATING_TICKET branch, and
the exception path of `_handle_state` — leave only the user message in the
history (the returned response is never appended); the assistant response is
recorded exactly on the paths that fall through to the final `add_message`:
the KB-search paths of COLLECTING_ISSUE and the `_handle_state` paths that
return normally. -/
theorem assistant_reply_recorded_only_on_fallthrough
    (c : Collabs) (kbReady : Bool) (ctx : ConversationContext) (msg : String)
    (intent : Intent) (entities : List Entity)
    (h1 : c.detectIntent msg = .ok (intent, entities)) :
    (ctx.current_state = .collectingIssue →
      turnHasContact ctx msg intent entities = true →
      (processMessage c kbReady ctx msg).1.messages =
        ctx.messages ++ [userRecord msg intent entities]) ∧
    (ctx.current_state = .creatingTicket →
      (processMessage c kbReady ctx msg).1.messages =
        ctx.messages ++ [userRecord msg intent entities]) ∧
    (ctx.current_state = .collectingIssue →
      turnHasContact ctx msg intent entities = false →
      (processMessage c kbReady ctx msg).1.messages =
        ctx.messages ++ [userRecord msg intent entities,
          assistantRecord (processMessage c kbReady ctx msg).2.1]) ∧
    (ctx.current_state ≠ .collectingIssue →
      ctx.current_state ≠ .creatingTicket →
      ∀ ctx2 resp ev,
        handleState c (ctx.addMessage "user" msg (some intent) entities) msg intent =
          .ok (ctx2, resp, ev) →
        (processMessage c kbReady ctx msg).1.messages =
          ctx.messages ++ [userRecord msg intent entities,
            assistantRecord (processMessage c kbReady ctx msg).2.1]) ∧
    (ctx.current_state ≠ .collectingIssue →
      ctx.current_state ≠ .creatingTicket →
      handleState c (ctx.addMessage "user" msg (some intent) entities) msg intent =
        .error () →
      (processMessage c kbReady ctx msg).1.messages =
        ctx.messages ++ [userRecord msg intent entities]) := by
  refine ⟨?_, ?_, ?_, ?_, ?_⟩
  · -- COLLECTING_ISSUE with contact info: early return, no assistant message
    intro hst hci
    have h2' : (ctx.addMessage "user" msg (some intent) entities).current_state =
        ConversationState.collectingIssue := by
      rw [addMessage_current_state, hst]
    have h3' : ((extractContactInfo
          (some (ctx.addMessage "user" msg (some intent) entities)) msg).email.isSome ||
        (extractContactInfo
          (some (ctx.addMessage "user" msg (some intent) entities)) msg).phone.isSome) =
        true := hci
    rcases hcs : createSupportTicket c
        ((storeContact (ctx.addMessage "user" msg (some intent) entities)
          (extractContactInfo (some (ctx.addMessage "user" msg (some intent) entities))
            msg)).transitionState .creatingTicket)
      with ⟨b, resp, ev⟩
    cases b
    · have hpm : processMessage c kbReady ctx msg =
          ((storeContact (ctx.addMessage "user" msg (some intent) entities)
              (extractContactInfo (some (ctx.addMessage "user" msg (some intent) entities))
                msg)).transitionState .creatingTicket,
            resp, .classify msg :: .transition .creatingTicket :: ev) := by
        unfold processMessage
        simp only [h1]
        rw [if_pos h2', if_pos h3']
        rw [hcs]
      rw [hpm]
      rfl
    · have hpm : processMessage c kbReady ctx msg =
          (((storeContact (ctx.addMessage "user" msg (some intent) entities)
              (extractContactInfo (some (ctx.addMessage "user" msg (some intent) entities))
                msg)).transitionState .creatingTicket).transitionState .ended,
            resp, .classify msg :: .transition .creatingTicket ::
              (ev ++ [.transition .ended])) := by
        unfold processMessage
        simp only [h1]
        rw [if_pos h2', if_pos h3']
        rw [hcs]
      rw [hpm]
      rfl
  · -- CREATING_TICKET: both branches return early, no assistant message
    intro hst
    have hne1 : ¬((ctx.addMessage "user" msg (some intent) entities).current_state =
        ConversationState.collectingIssue) := by
      rw [addMessage_current_state, hst]; decide
    have heq2 : (ctx.addMessage "user" msg (some intent) entities).current_state =
        ConversationState.creatingTicket := by
      rw [addMessage_current_state, hst]
    by_cases hci : ((extractContactInfo
          (some (ctx.addMessage "user" msg (some intent) entities)) msg).email.isSome ||
        (extractContactInfo
          (some (ctx.addMessage "user" msg (some intent) entities)) msg).phone.isSome) =
        true
    · rcases hcs : createSupportTicket c
          (storeContact (ctx.addMessage "user" msg (some intent) entities)
            (extractContactInfo (some (ctx.addMessage "user" msg (some intent) entities))
              msg))
        with ⟨b, resp, ev⟩
      cases b
      · have hpm : processMessage c kbReady ctx msg =
            (storeContact (ctx.addMessage "user" msg (some intent) entities)
              (extractContactInfo (some (ctx.addMessage "user" msg (some intent) entities))
                msg),
              resp, .classify msg :: ev) := by
          unfold processMessage
          simp only [h1]
          rw [if_neg hne1, if_pos heq2, if_pos hci]
          rw [hcs]
        rw [hpm]
        rfl
      · have hpm : processMessage c kbReady ctx msg =
            ((storeContact (ctx.addMessage "user" msg (some intent) entities)
              (extractContactInfo (some (ctx.addMessage "user" msg (some intent) entities))
                msg)).transitionState .ended,
              resp, .classify msg :: (ev ++ [.transition .ended])) := by
          unfold processMessage
          simp only [h1]
          rw [if_neg hne1, if_pos heq2, if_pos hci]
          rw [hcs]
        rw [hpm]
        rfl
    · have hpm : processMessage c kbReady ctx msg =
          (ctx.addMessage "user" msg (some intent) entities, askContactResponse,
            [.classify msg]) := by
        unfold processMessage
        simp only [h1]
        rw [if_neg hne1, if_pos heq2, if_neg hci]
      rw [hpm]
      rfl
  · -- COLLECTING_ISSUE without contact info: KB path, assistant message recorded
    intro hst hci
    have h2' : (ctx.addMessage "user" msg (some intent) entities).current_state =
        ConversationState.collectingIssue := by
      rw [addMessage_current_state, hst]
    have hci' : ((extractContactInfo
          (some (ctx.addMessage "user" msg (some intent) entities)) msg).email.isSome ||
        (extractContactInfo
          (some (ctx.addMessage "user" msg (some intent) entities)) msg).phone.isSome) =
        false := hci
    have hne : ¬(((extractContactInfo
          (some (ctx.addMessage "user" msg (some intent) entities)) msg).email.isSome ||
        (extractContactInfo
          (some (ctx.addMessage "user" msg (some intent) entities)) msg).phone.isSome) =
        true) := by
      rw [hci']; decide
    cases hkb : (if kbReady then c.kbSearch msg else none) with
    | none =>
      have hpm : processMessage c kbReady ctx msg =
          (((ctx.addMessage "user" msg (some intent) entities).transitionState
              .creatingTicket).addMessage "assistant" noKbResponse,
            noKbResponse,
            .classify msg ::
              ((if kbReady then [Event.kbSearch msg] else []) ++
                [.transition .creatingTicket])) := by
        unfold processMessage
        simp only [h1]
        rw [if_pos h2', if_neg hne]
        rw [hkb]
      rw [hpm]
      simp [ConversationContext.addMessage, ConversationContext.transitionState,
        userRecord, assistantRecord]
    | some s =>
      have hpm : processMessage c kbReady ctx msg =
          (((ctx.addMessage "user" msg (some intent) entities).transitionState
              .providingSolution).addMessage "assistant"
                (s ++ "\n\nWas this information helpful?"),
            s ++ "\n\nWas this information helpful?",
            .classify msg ::
              ((if kbReady then [Event.kbSearch msg] else []) ++
                [.transition .providingSolution])) := by
        unfold processMessage
        simp only [h1]
        rw [if_pos h2', if_neg hne]
        rw [hkb]
      rw [hpm]
      simp [ConversationContext.addMessage, ConversationContext.transitionState,
        userRecord, assistantRecord]
  · -- other states, _handle_state returns normally: assistant message recorded
    intro hne1 hne2 ctx2 resp ev hout
    have hne1' : ¬((ctx.addMessage "user" msg (some intent) entities).current_state =
        ConversationState.collectingIssue) := by
      rw [addMessage_current_state]; exact hne1
    have hne2' : ¬((ctx.addMessage "user" msg (some intent) entities).current_state =
        ConversationState.creatingTicket) := by
      rw [addMessage_current_state]; exact hne2
    have hpm : processMessage c kbReady ctx msg =
        (ctx2.addMessage "assistant" resp, resp, .classify msg :: ev) := by
      unfold processMessage
      simp only [h1]
      rw [if_neg hne1', if_neg hne2']
      rw [hout]
    rw [hpm]
    have hmsg : ctx2.messages =
        (ctx.addMessage "user" msg (some intent) entities).messages :=
      handleState_ok_messages c _ msg intent (ctx2, resp, ev) hout
    rw [addMessage_messages, hmsg, addMessage_messages]
    simp [userRecord, assistantRecord]
  · -- other states, _handle_state raises: early error return, no assistant message
    intro hne1 hne2 hout
    have hne1' : ¬((ctx.addMessage "user" msg (some intent) entities).current_state =
        ConversationState.collectingIssue) := by
      rw [addMessage_current_state]; exact hne1
    have hne2' : ¬((ctx.addMessage "user" msg (some intent) entities).current_state =
        ConversationState.creatingTicket) := by
      rw [addMessage_current_state]; exact hne2
    have hpm : processMessage c kbReady ctx msg =
        (ctx.addMessage "user" msg (some intent) entities, troubleResponse,
          [.classify msg]) := by
      unfold processMessage
      simp only [h1]
      rw [if_neg hne1', if_neg hne2']
      rw [hout]
    rw [hpm]
    rfl

/-- An empty CREATING_TICKET conversation for the C10 witness. -/
def ctxTicketW : ConversationContext :=
{ conversation_id := "c10", current_state := .creatingTicket }

/-- C10 witness: a CREATING_TICKET turn with no contact info in the utterance
records only the user message. -/
theorem assistant_reply_recorded_only_on_fallthrough_witness :
    (processMessage collabsOk true ctxTicketW "hello").1.messages =
      [userRecord "hello" Intent.unknown []] :=
  (assistant_reply_recorded_only_on_fallthrough collabsOk true ctxTicketW "hello"
    Intent.unknown [] rfl).2.1 rfl

end Kayako
